import Mathlib

/-!
Shallow embedding of `soundbot.py` (the `MusicBot` class): the persisted
settings record, the config store (`load_config` / `save_config`), the
fetch step (`download_and_convert`), the delivery pipeline
(`send_random_music`), the command handlers, the scheduler reconfiguration
(`setup_scheduler`) and the authorization wrapper (`authorized_command`).
External collaborators (yt-dlp, the Telegram API, the filesystem, the
random generator) are modelled as explicit parameters: the item lists a
playlist resolves to, the files a download leaves in the scratch
directory, the chosen random indices, and whether the delivery send call
succeeds.
-/

namespace SoundBot

/-- The persisted settings record (`bot_config.json`): the five keys set up
by `default_config` inside `load_config`.  File sizes are rationals because
the source computes sizes in megabytes as `os.path.getsize(p) / (1024 * 1024)`. -/
structure Config where
  playlists : List String
  interval_minutes : Int
  download_format : String
  max_file_size_mb : ℚ
  enabled : Bool
deriving Repr, DecidableEq

/-- `default_config` from `load_config`: empty playlist list, 1 minute,
audio format, 50 MB ceiling, disabled. -/
def default_config : Config :=
  { playlists := []
    interval_minutes := 1
    download_format := "audio"
    max_file_size_mb := 50
    enabled := false }

/-- A record as parsed back from the config file: any of the five keys may
be missing (the source backfills them), mirrored by `Option` fields. -/
structure RawConfig where
  playlists : Option (List String)
  interval_minutes : Option Int
  download_format : Option String
  max_file_size_mb : Option ℚ
  enabled : Option Bool
deriving Repr, DecidableEq

/-- The backfill loop of `load_config`: every key absent from the loaded
record is taken from `default_config`. -/
def merge_defaults (r : RawConfig) : Config :=
  { playlists := r.playlists.getD default_config.playlists
    interval_minutes := r.interval_minutes.getD default_config.interval_minutes
    download_format := r.download_format.getD default_config.download_format
    max_file_size_mb := r.max_file_size_mb.getD default_config.max_file_size_mb
    enabled := r.enabled.getD default_config.enabled }

/-- What the filesystem presents to `load_config`: no config file, a file
whose open or parse raises, or a successfully parsed record. -/
inductive ReadOutcome
  | absent
  | readError
  | ok (r : RawConfig)
deriving Repr, DecidableEq

/-- `load_config`: returns the resulting in-memory config together with
whether `save_config(default_config)` was invoked (the no-file branch).
Every exception path is absorbed by the `except` clause, which returns
`default_config`; nothing is raised to the caller. -/
def load_config : ReadOutcome → Config × Bool
  | .absent => (default_config, true)
  | .readError => (default_config, false)
  | .ok r => (merge_defaults r, false)

/-- `save_config`: attempts the write; a raised write error is caught and
logged inside the function.  The result reports what the file now holds
(`none` when the write failed); as a total function it never propagates an
error to its caller. -/
def save_config (writeSucceeds : Bool) (c : Config) : Option Config :=
  if writeSucceeds then some c else none

/-- One file in the scratch directory: its name and its size in megabytes. -/
structure FileInfo where
  name : String
  sizeMB : ℚ
deriving Repr, DecidableEq

/-- What yt-dlp leaves in the fresh scratch directory: either an exception
was raised during metadata extraction or download (with whatever leftover
files were produced before the failure), or the download completed leaving
the listed files, in `os.listdir` order. -/
inductive DlOutcome
  | raised (leftover : List FileInfo)
  | completed (files : List FileInfo)
deriving Repr, DecidableEq

/-- Result of `download_and_convert`: the returned path (`none` when the
function reports absence), whether the scratch directory still exists
afterwards, and the files then remaining inside it. -/
structure FetchResult where
  result : Option FileInfo
  scratchExists : Bool
  scratchFiles : List FileInfo
deriving Repr, DecidableEq

/-- `download_and_convert`: iterates over `os.listdir(temp_dir)`; the first
listed file is size-checked against `max_file_size_mb` and either returned
or deleted (`os.remove`), and both branches return from inside the first
loop iteration; an empty listing falls through to an implicit `None`; any
raised error is caught and yields `None`.  No branch removes the scratch
directory itself. -/
def download_and_convert (maxSizeMb : ℚ) (dl : DlOutcome) : FetchResult :=
  match dl with
  | .raised leftover => ⟨none, true, leftover⟩
  | .completed [] => ⟨none, true, []⟩
  | .completed (f :: rest) =>
      if f.sizeMB ≤ maxSizeMb then ⟨some f, true, f :: rest⟩
      else ⟨none, true, rest⟩

/-- A delivery emitted to the Telegram collaborator: `send_audio` or
`send_video`, with the attached file and its caption. -/
inductive Delivery
  | audio (file : FileInfo) (caption : String)
  | video (file : FileInfo) (caption : String)
deriving Repr, DecidableEq

/-- The send operation chosen in `send_random_music`: audio when the
current `download_format` equals `"audio"`, video otherwise, with the
caption embedding the source URL. -/
def delivery_of (cfg : Config) (f : FileInfo) (video_url : String) : Delivery :=
  if cfg.download_format == "audio" then
    Delivery.audio f ("🎵 Random music from your playlists! 🔗 " ++ video_url)
  else
    Delivery.video f ("🎬 Random video from your playlists! 🔗 " ++ video_url)

/-- Observable outcome of one `send_random_music` cycle: where the cycle
stopped, and — when a scratch directory was created — whether it still
exists and what files remain inside it after the cycle. -/
inductive CycleOutcome
  | abortedNoPlaylists
  | abortedDisabled
  | abortedNoVideos
  | abortedNoFile (scratch : FetchResult)
  | delivered (d : Delivery) (sendSucceeded : Bool)
      (scratchExists : Bool) (scratchFiles : List FileInfo)
deriving Repr, DecidableEq

/-- `send_random_music`: guard on empty `playlists`, then on `enabled`;
pick a playlist at random (`random.choice`, modelled by an arbitrary index
taken modulo the length); resolve it; guard on an empty item list; pick an
item at random; fetch via `download_and_convert` with the current format
and size limit; if a file came back, send it (audio or video by current
format) and then, in the `finally` block, delete the file and remove the
scratch directory when it is then empty.  A delivery failure does not skip
that cleanup. -/
def send_random_music (cfg : Config) (resolve : String → List String)
    (dl : String → String → DlOutcome) (pickP pickV : Nat)
    (sendSucceeds : Bool) : CycleOutcome :=
  if cfg.playlists.isEmpty then .abortedNoPlaylists
  else if !cfg.enabled then .abortedDisabled
  else
    let playlist_url := cfg.playlists.getD (pickP % cfg.playlists.length) ""
    let video_urls := resolve playlist_url
    if video_urls.isEmpty then .abortedNoVideos
    else
      let video_url := video_urls.getD (pickV % video_urls.length) ""
      let fr := download_and_convert cfg.max_file_size_mb (dl video_url cfg.download_format)
      match fr.result with
      | none => .abortedNoFile fr
      | some f =>
          let remaining := fr.scratchFiles.erase f
          .delivered (delivery_of cfg f video_url) sendSucceeds
            (!remaining.isEmpty) remaining

/-- Result of the `/send_now` handler: either the no-playlists rejection
reply, or the "Please wait" reply followed by the outcome of the triggered
`send_random_music` cycle. -/
inductive SendNowResult
  | noPlaylistsReply
  | triggered (wait_reply : String) (outcome : CycleOutcome)
deriving Repr, DecidableEq

/-- `send_now_command`: rejects when `playlists` is empty, otherwise
replies and invokes `send_random_music` (the same function the scheduler
fires; it performs its own `enabled` check). -/
def send_now_command (cfg : Config) (resolve : String → List String)
    (dl : String → String → DlOutcome) (pickP pickV : Nat)
    (sendSucceeds : Bool) : SendNowResult :=
  if cfg.playlists.isEmpty then .noPlaylistsReply
  else .triggered "🎵 Selecting and downloading random music... Please wait!"
    (send_random_music cfg resolve dl pickP pickV sendSucceeds)

/-- Result of a config-mutating command handler: the config afterwards,
whether `save_config` was invoked, and the (final) reply sent back. -/
structure CmdResult where
  config : Config
  saved : Bool
  reply : String
deriving Repr, DecidableEq

/-- `/enable`: rejected when `playlists` is empty (no mutation, no write),
otherwise sets `enabled` to true and saves. -/
def enable_command (cfg : Config) : CmdResult :=
  if cfg.playlists.isEmpty then
    ⟨cfg, false, "❌ Cannot enable: No playlists configured!"⟩
  else
    ⟨{ cfg with enabled := true }, true, "✅ Music Bot Enabled!"⟩

/-- `/disable`: sets `enabled` to false and saves, unconditionally. -/
def disable_command (cfg : Config) : CmdResult :=
  ⟨{ cfg with enabled := false }, true, "❌ Music Bot Disabled"⟩

/-- Value of a non-empty all-digit character list, as `int()` reads it. -/
def digits_val (l : List Char) : Option Nat :=
  if !l.isEmpty && l.all Char.isDigit then
    some (l.foldl (fun a c => a * 10 + (c.toNat - 48)) 0)
  else none

/-- Python's `int(s)` on a command argument: an optional sign followed by
decimal digits; anything else raises `ValueError`, modelled as `none`. -/
def py_int (s : String) : Option Int :=
  match s.data with
  | '-' :: rest => (digits_val rest).map (fun n => -(n : Int))
  | '+' :: rest => (digits_val rest).map (fun n => (n : Int))
  | l => (digits_val l).map (fun n => (n : Int))

/-- `/remove_playlist`: parses the 1-based index (`int(...)`, a parse
failure is caught), converts to 0-based, and pops the entry when the index
is in range.  Note that it does not touch `enabled`, even when it removes
the last playlist. -/
def remove_playlist_command (cfg : Config) (args : List String) : CmdResult :=
  match args with
  | [] => ⟨cfg, false, "Please provide the playlist number."⟩
  | a :: _ =>
      match py_int a with
      | none => ⟨cfg, false, "❌ Please provide a valid number."⟩
      | some n =>
          let playlist_num := n - 1
          if 0 ≤ playlist_num ∧ playlist_num < (cfg.playlists.length : Int) then
            ⟨{ cfg with playlists := cfg.playlists.eraseIdx playlist_num.toNat },
              true, "✅ Removed playlist"⟩
          else
            ⟨cfg, false, "❌ Invalid playlist number."⟩

/-- Substring occurrence over character lists. -/
def list_sub (needle hay : List Char) : Bool :=
  (List.range (hay.length + 1)).any (fun i => needle.isPrefixOf (hay.drop i))

/-- Python's substring test `needle in hay`. -/
def str_contains (hay needle : String) : Bool :=
  list_sub needle.data hay.data

/-- `/add_playlist`: URL-shape check (either of two substrings must occur),
duplicate check against the current list, then a test resolution; the URL
is appended and saved only when the resolution is non-empty. -/
def add_playlist_command (cfg : Config) (args : List String)
    (resolve : String → List String) : CmdResult :=
  match args with
  | [] => ⟨cfg, false, "Please provide a playlist URL."⟩
  | playlist_url :: _ =>
      if !(str_contains playlist_url "youtube.com/playlist") &&
          !(str_contains playlist_url "youtu.be/playlist") then
        ⟨cfg, false, "❌ Please provide a valid YouTube playlist URL"⟩
      else if cfg.playlists.contains playlist_url then
        ⟨cfg, false, "⚠️ This playlist is already in your list!"⟩
      else if !(resolve playlist_url).isEmpty then
        ⟨{ cfg with playlists := cfg.playlists ++ [playlist_url] },
          true, "✅ Playlist added successfully!"⟩
      else
        ⟨cfg, false, "❌ Could not access this playlist."⟩

/-- Python's `str.lower()` as used on the `/set_format` argument (the
accepted arguments are ASCII case variants of `audio` / `video`, on which
`Char.toLower` agrees with Python's lowercasing). -/
def py_lower (s : String) : String := ⟨s.data.map Char.toLower⟩

/-- `/set_format`: lowercases the argument, rejects anything whose
lowercasing is not `audio` or `video`, otherwise stores the lowercased
value and saves. -/
def set_format_command (cfg : Config) (args : List String) : CmdResult :=
  match args with
  | [] => ⟨cfg, false, "Please specify format: audio or video"⟩
  | a :: _ =>
      let format_choice := py_lower a
      if !(format_choice == "audio" || format_choice == "video") then
        ⟨cfg, false, "❌ Format must be either audio or video"⟩
      else
        ⟨{ cfg with download_format := format_choice },
          true, "✅ Download format set"⟩

/-- The APScheduler state the bot manipulates: whether the engine has been
started, and the ids of the scheduled jobs. -/
structure SchedState where
  running : Bool
  jobs : List String
deriving Repr, DecidableEq

/-- The scheduler as constructed in `__init__`: not started, no jobs. -/
def initial_scheduler : SchedState := ⟨false, []⟩

/-- `scheduler.add_job(..., id=jobId, replace_existing=True)`: a job with
an already-present id replaces it, otherwise the job is appended. -/
def add_job (jobs : List String) (jobId : String) : List String :=
  if jobs.contains jobId then jobs else jobs ++ [jobId]

/-- `setup_scheduler`: removes all jobs when the engine is running, then —
only when `enabled` and `playlists` non-empty — adds the single
`send_music_job` job and starts the engine if needed. -/
def setup_scheduler (cfg : Config) (s : SchedState) : SchedState :=
  let jobs1 := if s.running then [] else s.jobs
  if cfg.enabled && !cfg.playlists.isEmpty then
    ⟨true, add_job jobs1 "send_music_job"⟩
  else
    ⟨s.running, jobs1⟩

/-- The scheduler part of `disable_command`: removes all jobs when the
engine is running (the engine itself keeps running idle). -/
def disable_scheduler (s : SchedState) : SchedState :=
  ⟨s.running, if s.running then [] else s.jobs⟩

/-- The operations the command surface performs on the scheduler:
`setup_scheduler` (from `/enable`, `/set_interval` and startup) and the
job-clearing part of `/disable`. -/
inductive SchedOp
  | reconfigure (cfg : Config)
  | disable
deriving Repr

/-- One scheduler operation applied to a scheduler state. -/
def sched_step (s : SchedState) : SchedOp → SchedState
  | .reconfigure cfg => setup_scheduler cfg s
  | .disable => disable_scheduler s

/-- A sequence of scheduler operations run from the initial state. -/
def sched_run (ops : List SchedOp) : SchedState :=
  ops.foldl sched_step initial_scheduler

/-- `check_user_permission` composed into the wrapper built by
`authorized_command` in `run`: any sender other than the configured
`user_id` receives the rejection reply and the wrapped handler body is
never invoked, so the settings record cannot change. -/
def authorized_command (user_id : Int) (handler : Config → CmdResult)
    (sender : Int) (cfg : Config) : CmdResult :=
  if sender ≠ user_id then
    ⟨cfg, false, "🚫 You are not authorized to use this bot."⟩
  else handler cfg

/-- Whether a cycle outcome left no scratch directory behind (vacuously
true for the abort paths that never created one). -/
def scratch_removed : CycleOutcome → Bool
  | .abortedNoFile fr => !fr.scratchExists
  | .delivered _ _ ex _ => !ex
  | _ => true

/-- C1: contrary to the claim, the manual trigger does not ignore
`enabled`: for every configuration with a non-empty playlist list and
`enabled = false`, `send_now_command` calls `send_random_music`, which
returns at its unconditional `enabled` check — the cycle aborts without
selecting, resolving, fetching or delivering, whatever the collaborators
would have produced. -/
theorem c1_send_now_respects_enabled (cfg : Config)
    (resolve : String → List String) (dl : String → String → DlOutcome)
    (pickP pickV : Nat) (sendOk : Bool)
    (hne : cfg.playlists ≠ []) (hdis : cfg.enabled = false) :
    send_now_command cfg resolve dl pickP pickV sendOk
      = .triggered "🎵 Selecting and downloading random music... Please wait!"
          .abortedDisabled := by
  simp [send_now_command, send_random_music, hdis, hne]

/-- C1, at the failing input: one playlist configured, `enabled = false`,
a resolvable playlist and a small downloadable file — `/send_now` replies
"Please wait!" and then sends nothing. -/
theorem c1_witness :
    (⟨["https://youtube.com/playlist?list=PL1"], 1, "audio", 50, false⟩ : Config).playlists ≠ [] ∧
    send_now_command ⟨["https://youtube.com/playlist?list=PL1"], 1, "audio", 50, false⟩
        (fun _ => ["v"]) (fun _ _ => .completed [⟨"song.mp3", 3⟩]) 0 0 true
      = .triggered "🎵 Selecting and downloading random music... Please wait!"
          .abortedDisabled :=
  ⟨by decide,
    c1_send_now_respects_enabled _ _ _ _ _ _ (by decide) rfl⟩

/-- C2: counterexample — a cycle whose fetched file exceeds the size limit
(limit 10, file 15 MB) deletes the file inside `download_and_convert` but
no code path removes the scratch directory on that exit, so the scratch
directory still exists after the cycle completes, contradicting the claim
that it is removed on every exit path. -/
theorem c2_counterexample :
    scratch_removed (send_random_music ⟨["https://youtube.com/playlist?list=PL1"], 1, "audio", 10, true⟩
      (fun _ => ["v"]) (fun _ _ => .completed [⟨"big.mp3", 15⟩]) 0 0 true) = false := by
  decide

/-- C2 (amended): cleanup of the scratch directory happens only on the
exit paths where the fetch returned a file.  When the first file is within
the limit, the `finally` block deletes it and removes the directory when
then empty (so the usual single-file cycle leaves no scratch directory,
whether or not the delivery send succeeded); when the first file is
oversized, only that file is deleted and the directory survives; when the
download raised, or produced no file, nothing is deleted and the directory
survives. -/
theorem c2_cleanup_per_path (cfg : Config) (vurls : List String)
    (pickP pickV : Nat) (sendOk : Bool)
    (hen : cfg.enabled = true) (hnp : cfg.playlists ≠ []) (hnv : vurls ≠ []) :
    (∀ (f : FileInfo) (rest : List FileInfo), f.sizeMB ≤ cfg.max_file_size_mb →
      send_random_music cfg (fun _ => vurls) (fun _ _ => .completed (f :: rest))
          pickP pickV sendOk
        = .delivered (delivery_of cfg f (vurls.getD (pickV % vurls.length) ""))
            sendOk (!rest.isEmpty) rest) ∧
    (∀ (f : FileInfo) (rest : List FileInfo), cfg.max_file_size_mb < f.sizeMB →
      send_random_music cfg (fun _ => vurls) (fun _ _ => .completed (f :: rest))
          pickP pickV sendOk
        = .abortedNoFile ⟨none, true, rest⟩) ∧
    (∀ leftover : List FileInfo,
      send_random_music cfg (fun _ => vurls) (fun _ _ => .raised leftover)
          pickP pickV sendOk
        = .abortedNoFile ⟨none, true, leftover⟩) ∧
    (send_random_music cfg (fun _ => vurls) (fun _ _ => .completed [])
          pickP pickV sendOk
        = .abortedNoFile ⟨none, true, []⟩) := by
  refine ⟨fun f rest hle => ?_, fun f rest hgt => ?_, fun leftover => ?_, ?_⟩
  · simp [send_random_music, download_and_convert, hen, hnp, hnv, hle]
  · simp [send_random_music, download_and_convert, hen, hnp, hnv, not_le.mpr hgt]
  · simp [send_random_music, download_and_convert, hen, hnp, hnv]
  · simp [send_random_music, download_and_convert, hen, hnp, hnv]

/-- C2 (amended), at a concrete input: a successful single-file cycle
leaves no scratch directory even when the send fails, while an oversized
file leaves the (emptied) scratch directory behind. -/
theorem c2_witness :
    send_random_music ⟨["p"], 1, "audio", 10, true⟩ (fun _ => ["v"])
        (fun _ _ => .completed [⟨"ok.mp3", 5⟩]) 0 0 false
      = .delivered (delivery_of ⟨["p"], 1, "audio", 10, true⟩ ⟨"ok.mp3", 5⟩ "v")
          false false [] ∧
    send_random_music ⟨["p"], 1, "audio", 10, true⟩ (fun _ => ["v"])
        (fun _ _ => .completed [⟨"big.mp3", 15⟩]) 0 0 false
      = .abortedNoFile ⟨none, true, []⟩ := by
  have h := c2_cleanup_per_path ⟨["p"], 1, "audio", 10, true⟩ ["v"] 0 0 false
    rfl (by decide) (by decide)
  exact ⟨h.1 ⟨"ok.mp3", 5⟩ [] (by norm_num), h.2.1 ⟨"big.mp3", 15⟩ [] (by norm_num)⟩

/-- C3: whenever the first downloaded file's size exceeds the current
`max_file_size_mb`, the fetch step deletes that file (it is no longer
among the scratch files) and reports absence, and the cycle terminates
without delivering: the outcome is `abortedNoFile`, never `delivered`. -/
theorem c3_oversize_rejected (cfg : Config) (vurls : List String)
    (f : FileInfo) (rest : List FileInfo) (pickP pickV : Nat) (sendOk : Bool)
    (hen : cfg.enabled = true) (hnp : cfg.playlists ≠ []) (hnv : vurls ≠ [])
    (hsize : cfg.max_file_size_mb < f.sizeMB) :
    download_and_convert cfg.max_file_size_mb (.completed (f :: rest))
      = ⟨none, true, rest⟩ ∧
    send_random_music cfg (fun _ => vurls) (fun _ _ => .completed (f :: rest))
        pickP pickV sendOk
      = .abortedNoFile ⟨none, true, rest⟩ ∧
    (∀ d sOk ex fl,
      send_random_music cfg (fun _ => vurls) (fun _ _ => .completed (f :: rest))
          pickP pickV sendOk
        ≠ .delivered d sOk ex fl) := by
  have hfetch : download_and_convert cfg.max_file_size_mb (.completed (f :: rest))
      = ⟨none, true, rest⟩ := by
    simp [download_and_convert, not_le.mpr hsize]
  have hcycle : send_random_music cfg (fun _ => vurls)
      (fun _ _ => .completed (f :: rest)) pickP pickV sendOk
      = .abortedNoFile ⟨none, true, rest⟩ := by
    simp [send_random_music, download_and_convert, hen, hnp, hnv, not_le.mpr hsize]
  exact ⟨hfetch, hcycle, fun d sOk ex fl h => by rw [hcycle] at h; exact CycleOutcome.noConfusion h⟩

/-- C3, at the spec's own example: limit 10 MB, fetched file 15 MB — the
file is deleted, absence is reported, nothing is delivered. -/
theorem c3_witness :
    download_and_convert (10 : ℚ) (.completed [⟨"big.mp3", 15⟩]) = ⟨none, true, []⟩ ∧
    send_random_music ⟨["p"], 1, "audio", 10, true⟩ (fun _ => ["v"])
        (fun _ _ => .completed [⟨"big.mp3", 15⟩]) 0 0 true
      = .abortedNoFile ⟨none, true, []⟩ := by
  have h := c3_oversize_rejected ⟨["p"], 1, "audio", 10, true⟩ ["v"]
    ⟨"big.mp3", 15⟩ [] 0 0 true rfl (by decide) (by decide) (by norm_num)
  exact ⟨h.1, h.2.1⟩

/-- C4: counterexample — the claim quantifies over every configuration
with an empty playlist list, but a state with `enabled = true` and no
playlists is reachable through the command surface itself (`/remove_playlist 1`
on an enabled single-playlist configuration does not touch `enabled`), and
on that state `/enable` returns early, leaving `enabled = true`, not
false. -/
theorem c4_counterexample :
    (remove_playlist_command ⟨["https://youtube.com/playlist?list=PL1"], 1, "audio", 50, true⟩
        ["1"]).config.playlists = [] ∧
    (remove_playlist_command ⟨["https://youtube.com/playlist?list=PL1"], 1, "audio", 50, true⟩
        ["1"]).config.enabled = true ∧
    ¬ ((enable_command (remove_playlist_command
          ⟨["https://youtube.com/playlist?list=PL1"], 1, "audio", 50, true⟩
          ["1"]).config).config.enabled = false) := by
  decide

/-- C4 (amended): with an empty playlist list, `/enable` leaves the whole
settings record unchanged and does not write it; in particular `enabled`
keeps its prior value, so it remains false whenever it was false — but a
pre-existing `enabled = true` with an empty list is not reset. -/
theorem c4_enable_empty_noop (cfg : Config) (h : cfg.playlists = []) :
    (enable_command cfg).config = cfg ∧
    (enable_command cfg).saved = false ∧
    (cfg.enabled = false → (enable_command cfg).config.enabled = false) := by
  refine ⟨?_, ?_, fun hd => ?_⟩ <;> simp [enable_command, h]
  exact hd

/-- C4 (amended), at a concrete input: the default (empty, disabled)
configuration is untouched by `/enable`. -/
theorem c4_witness :
    (enable_command default_config).config = default_config ∧
    (enable_command default_config).saved = false ∧
    (enable_command default_config).config.enabled = false := by
  have h := c4_enable_empty_noop default_config rfl
  exact ⟨h.1, h.2.1, h.2.2 rfl⟩

/-- C5: `load_config` returns the parsed record with every absent key
backfilled from `default_config` (and every present key kept) when the
file parses; it returns the default record, after invoking `save_config`
on it, when no file exists; and it returns the in-memory default on a read
error.  Both store operations are total functions here — no branch raises
to the caller, a write failure merely yields an unpersisted record. -/
theorem c5_load_config_contract :
    load_config .absent = (default_config, true) ∧
    load_config .readError = (default_config, false) ∧
    (∀ r : RawConfig,
      (load_config (.ok r)).2 = false ∧
      (r.playlists = none →
        (load_config (.ok r)).1.playlists = default_config.playlists) ∧
      (∀ v, r.playlists = some v → (load_config (.ok r)).1.playlists = v) ∧
      (r.interval_minutes = none →
        (load_config (.ok r)).1.interval_minutes = default_config.interval_minutes) ∧
      (∀ v, r.interval_minutes = some v →
        (load_config (.ok r)).1.interval_minutes = v) ∧
      (r.download_format = none →
        (load_config (.ok r)).1.download_format = default_config.download_format) ∧
      (∀ v, r.download_format = some v →
        (load_config (.ok r)).1.download_format = v) ∧
      (r.max_file_size_mb = none →
        (load_config (.ok r)).1.max_file_size_mb = default_config.max_file_size_mb) ∧
      (∀ v, r.max_file_size_mb = some v →
        (load_config (.ok r)).1.max_file_size_mb = v) ∧
      (r.enabled = none → (load_config (.ok r)).1.enabled = default_config.enabled) ∧
      (∀ v, r.enabled = some v → (load_config (.ok r)).1.enabled = v)) ∧
    (∀ c : Config, save_config true c = some c ∧ save_config false c = none) := by
  refine ⟨rfl, rfl, fun r => ?_, fun c => ⟨rfl, rfl⟩⟩
  refine ⟨rfl, fun h => ?_, fun v h => ?_, fun h => ?_, fun v h => ?_,
    fun h => ?_, fun v h => ?_, fun h => ?_, fun v h => ?_,
    fun h => ?_, fun v h => ?_⟩ <;>
  simp [load_config, merge_defaults, h]

/-- C5, at a concrete input: a persisted record carrying only
`interval_minutes = 7` and `enabled = true` is backfilled with the default
playlist list and keeps its stored interval. -/
theorem c5_witness :
    (load_config (.ok ⟨none, some 7, none, none, some true⟩)).1.playlists
        = default_config.playlists ∧
    (load_config (.ok ⟨none, some 7, none, none, some true⟩)).1.interval_minutes = 7 := by
  have h := c5_load_config_contract.2.2.1 ⟨none, some 7, none, none, some true⟩
  exact ⟨h.2.1 rfl, h.2.2.2.2.1 7 rfl⟩

/-- C8: every inbound command from a sender other than the configured
recipient is stopped by the authorization wrapper: whatever the wrapped
handler would do, it is never invoked, the settings record is returned
unchanged and unwritten, and the caller receives the rejection reply. -/
theorem c8_unauthorized_rejected (user_id sender : Int)
    (handler : Config → CmdResult) (cfg : Config) (h : sender ≠ user_id) :
    authorized_command user_id handler sender cfg
      = ⟨cfg, false, "🚫 You are not authorized to use this bot."⟩ := by
  simp [authorized_command, h]

/-- C8, at a concrete input: an unauthorized sender invoking `/disable`
(a handler that would otherwise always mutate and save) changes nothing. -/
theorem c8_witness :
    authorized_command 123456789 disable_command 42
        ⟨["p"], 5, "video", 50, true⟩
      = ⟨⟨["p"], 5, "video", 50, true⟩, false,
          "🚫 You are not authorized to use this bot."⟩ :=
  c8_unauthorized_rejected 123456789 42 disable_command _ (by decide)

/-- C10: `/set_format` is case-insensitive — any argument whose
lowercasing is `audio` or `video` sets `download_format` to that
lowercased value and saves; any other argument leaves the configuration
unchanged and unwritten. -/
theorem c10_set_format_case_insensitive (cfg : Config) (a : String)
    (rest : List String) :
    ((py_lower a = "audio" ∨ py_lower a = "video") →
      set_format_command cfg (a :: rest)
        = ⟨{ cfg with download_format := py_lower a }, true,
            "✅ Download format set"⟩) ∧
    (¬ (py_lower a = "audio" ∨ py_lower a = "video") →
      set_format_command cfg (a :: rest)
        = ⟨cfg, false, "❌ Format must be either audio or video"⟩) := by
  constructor
  · intro h
    rcases h with h | h <;> simp [set_format_command, h]
  · intro h
    push_neg at h
    simp [set_format_command, h.1, h.2]

/-- C10, at concrete inputs: `AUDIO` and `Video` are accepted and stored
lowercased; `mp3` is rejected without a state change. -/
theorem c10_witness :
    set_format_command ⟨[], 1, "audio", 50, false⟩ ["AUDIO"]
      = ⟨⟨[], 1, "audio", 50, false⟩, true, "✅ Download format set"⟩ ∧
    set_format_command ⟨[], 1, "audio", 50, false⟩ ["Video"]
      = ⟨⟨[], 1, "video", 50, false⟩, true, "✅ Download format set"⟩ ∧
    set_format_command ⟨[], 1, "audio", 50, false⟩ ["mp3"]
      = ⟨⟨[], 1, "audio", 50, false⟩, false,
          "❌ Format must be either audio or video"⟩ := by
  refine ⟨?_, ?_, ?_⟩
  · have h := (c10_set_format_case_insensitive ⟨[], 1, "audio", 50, false⟩ "AUDIO" []).1
      (Or.inl (by decide))
    rw [h]
    decide
  · have h := (c10_set_format_case_insensitive ⟨[], 1, "audio", 50, false⟩ "Video" []).1
      (Or.inr (by decide))
    rw [h]
    decide
  · exact (c10_set_format_case_insensitive ⟨[], 1, "audio", 50, false⟩ "mp3" []).2
      (by decide)

/-- C9: the fetch step's outcome is a function of the first listed file
alone — two completed downloads whose listings share the same first file
produce the same returned path; zero files yield absence; a first file
within the limit is returned with everything left in place; an oversized
first file is deleted and absence reported, the remaining files never
examined. -/
theorem c9_first_file_only (maxMB : ℚ) :
    (∀ l1 l2 : List FileInfo, l1.head? = l2.head? →
      (download_and_convert maxMB (.completed l1)).result
        = (download_and_convert maxMB (.completed l2)).result) ∧
    (download_and_convert maxMB (.completed [])).result = none ∧
    (∀ (f : FileInfo) (rest : List FileInfo), f.sizeMB ≤ maxMB →
      download_and_convert maxMB (.completed (f :: rest))
        = ⟨some f, true, f :: rest⟩) ∧
    (∀ (f : FileInfo) (rest : List FileInfo), maxMB < f.sizeMB →
      download_and_convert maxMB (.completed (f :: rest))
        = ⟨none, true, rest⟩) := by
  refine ⟨fun l1 l2 h => ?_, rfl, fun f rest hle => ?_, fun f rest hgt => ?_⟩
  · cases l1 with
    | nil =>
        cases l2 with
        | nil => rfl
        | cons g s => simp at h
    | cons f r =>
        cases l2 with
        | nil => simp at h
        | cons g s =>
            simp at h
            subst h
            by_cases hc : f.sizeMB ≤ maxMB <;> simp [download_and_convert, hc]
  · simp [download_and_convert, hle]
  · simp [download_and_convert, not_le.mpr hgt]

/-- C9, at concrete inputs: with a 10 MB limit, listings `[a]` and
`[a, b]` yield the same returned file, and an oversized head is deleted
while the second file survives unexamined. -/
theorem c9_witness :
    (download_and_convert (10 : ℚ) (.completed [⟨"a.mp3", 4⟩])).result
      = (download_and_convert (10 : ℚ)
          (.completed [⟨"a.mp3", 4⟩, ⟨"b.mp3", 99⟩])).result ∧
    download_and_convert (10 : ℚ) (.completed [⟨"big.mp3", 15⟩, ⟨"b.mp3", 2⟩])
      = ⟨none, true, [⟨"b.mp3", 2⟩]⟩ := by
  have h := c9_first_file_only (10 : ℚ)
  exact ⟨h.1 [⟨"a.mp3", 4⟩] [⟨"a.mp3", 4⟩, ⟨"b.mp3", 99⟩] rfl,
    h.2.2.2 ⟨"big.mp3", 15⟩ [⟨"b.mp3", 2⟩] (by norm_num)⟩

/-- Invariant of the scheduler state under any run of command-surface
operations: the job list is empty or exactly the single `send_music_job`,
and it is empty whenever the engine has not been started. -/
theorem sched_foldl_inv (ops : List SchedOp) (s : SchedState)
    (hs : (s.jobs = [] ∨ s.jobs = ["send_music_job"]) ∧
      (s.running = false → s.jobs = [])) :
    ((ops.foldl sched_step s).jobs = []
        ∨ (ops.foldl sched_step s).jobs = ["send_music_job"]) ∧
    ((ops.foldl sched_step s).running = false
        → (ops.foldl sched_step s).jobs = []) := by
  induction ops generalizing s with
  | nil => exact hs
  | cons op ops ih =>
      refine ih (sched_step s op) ?_
      cases op with
      | reconfigure cfg =>
          by_cases hr : s.running
          · by_cases hc : (cfg.enabled && !cfg.playlists.isEmpty) = true <;>
              simp [sched_step, setup_scheduler, add_job, hr, hc]
          · have hj : s.jobs = [] := hs.2 (by simpa using hr)
            by_cases hc : (cfg.enabled && !cfg.playlists.isEmpty) = true <;>
              simp [sched_step, setup_scheduler, add_job, hr, hc, hj]
      | disable =>
          by_cases hr : s.running
          · simp [sched_step, disable_scheduler, hr]
          · have hj : s.jobs = [] := hs.2 (by simpa using hr)
            simp [sched_step, disable_scheduler, hr, hj]

/-- The invariant holds of every run from the initial scheduler state. -/
theorem sched_run_inv (ops : List SchedOp) :
    ((sched_run ops).jobs = [] ∨ (sched_run ops).jobs = ["send_music_job"]) ∧
    ((sched_run ops).running = false → (sched_run ops).jobs = []) :=
  sched_foldl_inv ops initial_scheduler ⟨Or.inl rfl, fun _ => rfl⟩

/-- C7: after any sequence of reconfigurations and disables at most one
scheduled job exists; reconfiguring twice with the same enabled,
non-empty-playlists settings leaves exactly the one `send_music_job`; and
a disable always leaves the job list empty. -/
theorem c7_scheduler_idempotent :
    (∀ ops : List SchedOp, (sched_run ops).jobs.length ≤ 1) ∧
    (∀ (ops : List SchedOp) (cfg : Config), cfg.enabled = true →
      cfg.playlists ≠ [] →
      (sched_run (ops ++ [.reconfigure cfg, .reconfigure cfg])).jobs
        = ["send_music_job"]) ∧
    (∀ ops : List SchedOp, (sched_run (ops ++ [.disable])).jobs = []) := by
  refine ⟨fun ops => ?_, fun ops cfg hen hne => ?_, fun ops => ?_⟩
  · rcases (sched_run_inv ops).1 with h | h <;> simp [h]
  · have hinv := sched_run_inv ops
    have hrw : sched_run (ops ++ [.reconfigure cfg, .reconfigure cfg])
        = sched_step (sched_step (sched_run ops) (.reconfigure cfg))
            (.reconfigure cfg) := by
      simp [sched_run, List.foldl_append]
    rw [hrw]
    have hc : (cfg.enabled && !cfg.playlists.isEmpty) = true := by
      simp [hen, hne]
    have hjobs1 : (if (sched_run ops).running then [] else (sched_run ops).jobs)
        = [] := by
      by_cases hr : (sched_run ops).running
      · simp [hr]
      · simp [hr, hinv.2 (by simpa using hr)]
    simp [sched_step, setup_scheduler, hc, hjobs1, add_job]
  · have hinv := sched_run_inv ops
    have hrw : sched_run (ops ++ [.disable])
        = sched_step (sched_run ops) .disable := by
      simp [sched_run, List.foldl_append]
    rw [hrw]
    by_cases hr : (sched_run ops).running
    · simp [sched_step, disable_scheduler, hr]
    · simp [sched_step, disable_scheduler, hr, hinv.2 (by simpa using hr)]

/-- C7, at a concrete input: enable, reconfigure twice, disable, and
re-enable twice with an enabled one-playlist configuration — exactly one
job remains. -/
theorem c7_witness :
    (sched_run ([.reconfigure ⟨["p"], 1, "audio", 50, true⟩, .disable]
        ++ [.reconfigure ⟨["p"], 1, "audio", 50, true⟩,
            .reconfigure ⟨["p"], 1, "audio", 50, true⟩])).jobs
      = ["send_music_job"] :=
  c7_scheduler_idempotent.2.1
    [.reconfigure ⟨["p"], 1, "audio", 50, true⟩, .disable]
    ⟨["p"], 1, "audio", 50, true⟩ rfl (by decide)

/-- C6: `/add_playlist` never duplicates an entry — a URL already present
leaves the list unchanged and unwritten; running the command twice with
the same URL gives the same configuration as running it once; a URL not
yet present that passes the shape check and resolves non-empty occurs
exactly once after two invocations; and the handler preserves
duplicate-freeness of the playlist list. -/
theorem c6_add_playlist_idempotent (cfg : Config) (url : String)
    (resolve : String → List String) :
    (url ∈ cfg.playlists →
      (add_playlist_command cfg [url] resolve).config = cfg ∧
      (add_playlist_command cfg [url] resolve).saved = false) ∧
    ((add_playlist_command (add_playlist_command cfg [url] resolve).config
        [url] resolve).config
      = (add_playlist_command cfg [url] resolve).config) ∧
    (url ∉ cfg.playlists →
      (str_contains url "youtube.com/playlist" = true ∨
        str_contains url "youtu.be/playlist" = true) →
      resolve url ≠ [] →
      (add_playlist_command (add_playlist_command cfg [url] resolve).config
          [url] resolve).config.playlists.count url = 1) ∧
    (cfg.playlists.Nodup →
      (add_playlist_command cfg [url] resolve).config.playlists.Nodup) := by
  by_cases hv : (!(str_contains url "youtube.com/playlist") &&
      !(str_contains url "youtu.be/playlist")) = true
  · have hv12 : str_contains url "youtube.com/playlist" = false ∧
        str_contains url "youtu.be/playlist" = false := by
      simpa using hv
    have hv1 := hv12.1
    have hv2 := hv12.2
    refine ⟨fun _ => ?_, ?_, fun _ hvalid _ => ?_, fun hnd => ?_⟩
    · constructor <;> simp [add_playlist_command, hv]
    · simp [add_playlist_command, hv]
    · rcases hvalid with h | h
      · rw [h] at hv1; exact absurd hv1 (by simp)
      · rw [h] at hv2; exact absurd hv2 (by simp)
    · simpa [add_playlist_command, hv] using hnd
  · by_cases hm : url ∈ cfg.playlists
    · refine ⟨fun _ => ?_, ?_, fun hnm _ _ => absurd hm hnm, fun hnd => ?_⟩
      · constructor <;> simp [add_playlist_command, hv, hm]
      · simp [add_playlist_command, hv, hm]
      · simpa [add_playlist_command, hv, hm] using hnd
    · by_cases he : (resolve url).isEmpty = true
      · have hres : resolve url = [] := by simpa using he
        refine ⟨fun h => absurd h hm, ?_, fun _ _ hne => absurd hres hne, fun hnd => ?_⟩
        · simp [add_playlist_command, hv, hm, he]
        · simpa [add_playlist_command, hv, hm, he] using hnd
      · have e1 : (add_playlist_command cfg [url] resolve).config
            = { cfg with playlists := cfg.playlists ++ [url] } := by
          simp [add_playlist_command, hv, hm, he]
        have hm2 : url ∈ cfg.playlists ++ [url] := by simp
        have e2 : (add_playlist_command { cfg with
              playlists := cfg.playlists ++ [url] } [url] resolve).config
            = { cfg with playlists := cfg.playlists ++ [url] } := by
          simp [add_playlist_command, hv, hm2]
        refine ⟨fun h => absurd h hm, ?_, fun _ _ _ => ?_, fun hnd => ?_⟩
        · rw [e1, e2]
        · rw [e1, e2]
          simp [List.count_append, List.count_eq_zero.mpr hm]
        · rw [e1]
          simp [List.nodup_append, hnd, hm]

/-- C6, at a concrete input: adding the same resolvable playlist URL
twice to an empty list yields exactly one entry, and the second add is a
no-op. -/
theorem c6_witness :
    (add_playlist_command
        (add_playlist_command ⟨[], 1, "audio", 50, false⟩
          ["https://youtube.com/playlist?list=A"] (fun _ => ["v"])).config
        ["https://youtube.com/playlist?list=A"]
        (fun _ => ["v"])).config.playlists.count
        "https://youtube.com/playlist?list=A" = 1 ∧
    (add_playlist_command
        (add_playlist_command ⟨[], 1, "audio", 50, false⟩
          ["https://youtube.com/playlist?list=A"] (fun _ => ["v"])).config
        ["https://youtube.com/playlist?list=A"] (fun _ => ["v"])).config
      = (add_playlist_command ⟨[], 1, "audio", 50, false⟩
          ["https://youtube.com/playlist?list=A"] (fun _ => ["v"])).config := by
  have h := c6_add_playlist_idempotent ⟨[], 1, "audio", 50, false⟩
    "https://youtube.com/playlist?list=A" (fun _ => ["v"])
  exact ⟨h.2.2.1 (by simp) (Or.inl (by decide)) (by decide), h.2.1⟩

end SoundBot
